import Mathlib

/-!
Shallow embedding of `src/shader.rs` from the rust-doom repository.

The Rust module wraps OpenGL shader objects.  The graphics driver is an
external collaborator reached through FFI calls; we model it as an oracle
(`DriverOracle`) that fixes, for one run, which handles the driver hands
out, whether a given source compiles, whether a given attachment pair
links, the log texts, uniform locations and the global error flag after
each call.  Compilation status is keyed by (shader type, source) and link
status by the pair of attached shader handles, which is faithful because
the driver's answers are functions of the object state built from exactly
those inputs ("compilation is deterministic given source").

Every driver call is recorded as an event (`GLCall`) in a trace carried by
a small state (`DrvState`).  The `check_gl!` / `check_gl_unsafe!` macros of
the repository wrap a call and then query `glGetError`; we model the query
as a `getError` event and a fatal fault (modelled as `none`) when the
oracle reports an error.  Rust `assert!` failures are likewise modelled as
`none`.  `Drop` impls are modelled as explicit functions invoked where the
Rust compiler would invoke them (end of scope, early `try!` returns,
consumed parameters at end of the callee).
-/

namespace shader

/-- A 32-bit IEEE float value, identified by its bit pattern.  No float
arithmetic occurs in the module: values are only passed through to the
driver, so the bit pattern is all we need. -/
structure F32 where
  bits : Nat
deriving DecidableEq, Repr

/-- The 3-component float vector type (`numvec::Vec3f`), an external
collaborator: only its three scalar fields matter here. -/
structure Vec3f where
  x : F32
  y : F32
  z : F32
deriving DecidableEq, Repr

/-- The 4x4 matrix type (`mat4::Mat4`), an external collaborator: the
module only reads its 16 scalars through `as_scalar_ptr`. -/
structure Mat4 where
  scalars : List F32
deriving DecidableEq, Repr

namespace gl

/-- `gl::VERTEX_SHADER`. -/
def VERTEX_SHADER : Nat := 0x8B31

/-- `gl::FRAGMENT_SHADER`. -/
def FRAGMENT_SHADER : Nat := 0x8B30

end gl

/-- One call into the graphics driver, with the value it returned where the
module consumes that value. `getError` is the bridge's post-call query. -/
inductive GLCall where
  | createShader (ty : Nat) (ret : Nat)
  | shaderSource (id : Nat) (src : String)
  | compileShader (id : Nat)
  | getShaderCompileStatus (id : Nat) (ret : Bool)
  | getShaderLogLength (id : Nat) (ret : Nat)
  | getShaderInfoLog (id : Nat) (log : String)
  | deleteShader (id : Nat)
  | createProgram (ret : Nat)
  | attachShader (program sh : Nat)
  | linkProgram (program : Nat)
  | getProgramLinkStatus (program : Nat) (ret : Bool)
  | getProgramLogLength (program : Nat) (ret : Nat)
  | getProgramInfoLog (program : Nat) (log : String)
  | deleteProgram (program : Nat)
  | useProgram (program : Nat)
  | getUniformLocation (program : Nat) (name : String) (ret : Int)
  | uniform1i (loc : Int) (value : Int)
  | uniform1f (loc : Int) (value : F32)
  | uniform3fv (loc : Int) (count : Nat) (values : List F32)
  | uniformMatrix4fv (loc : Int) (count : Nat) (transpose : Bool) (values : List F32)
  | getError
deriving DecidableEq, Repr

/-- The driver's behaviour for one run: which handle the n-th
create-shader / create-program call returns, compile status and log per
(shader type, source), link status and log per attached handle pair,
uniform locations, and whether the global error flag is set after a call. -/
structure DriverOracle where
  shaderHandle : Nat → Nat
  programHandle : Nat → Nat
  compileOk : Nat → String → Bool
  compileLog : Nat → String → String
  linkOk : Nat → Nat → Bool
  linkLog : Nat → Nat → String
  uniformLoc : Nat → String → Int
  errorAfter : GLCall → Bool

/-- Run state threaded through the embedding: how many create-shader and
create-program calls were issued so far (indexing the oracle's handle
streams) and the trace of driver calls in order. -/
structure DrvState where
  sCount : Nat
  pCount : Nat
  trace : List GLCall
deriving DecidableEq, Repr

/-- `check_gl!` / `check_gl_unsafe!`: perform the call, then query the
global error state; a reported error is a fatal bridge fault (`none`). -/
def checkCall (D : DriverOracle) (c : GLCall) (st : DrvState) : Option DrvState :=
  if D.errorAfter c then none
  else some ⟨st.sCount, st.pCount, st.trace ++ [c, GLCall.getError]⟩

/-- A raw driver call with no post-call error query (as in
`impl Drop for Program`). -/
def rawCall (c : GLCall) (st : DrvState) : DrvState :=
  ⟨st.sCount, st.pCount, st.trace ++ [c]⟩

/-- `fn compilation_succeeded(id) -> bool`: queries COMPILE_STATUS for the
shader object `id`; the oracle answers from the type and source that were
uploaded to `id`. -/
def compilation_succeeded (D : DriverOracle) (ty : Nat) (source : String)
    (id : Nat) (st : DrvState) : Option (Bool × DrvState) :=
  (checkCall D (GLCall.getShaderCompileStatus id (D.compileOk ty source)) st).map
    (fun st1 => (D.compileOk ty source, st1))

/-- `fn get_compilation_log(shader_id) -> String`: queries INFO_LOG_LENGTH,
asserts it positive (fatal otherwise), then fetches the log text. -/
def get_compilation_log (D : DriverOracle) (ty : Nat) (source : String)
    (shader_id : Nat) (st : DrvState) : Option (String × DrvState) :=
  let log := D.compileLog ty source
  (checkCall D (GLCall.getShaderLogLength shader_id log.length) st).bind (fun st1 =>
    if log.length = 0 then none
    else (checkCall D (GLCall.getShaderInfoLog shader_id log) st1).map (fun st2 => (log, st2)))

/-- `fn compile_any(shader_type, source)`: create a shader handle, assert
it non-zero (fatal otherwise), upload the source, compile, query status;
on failure read the log, delete the handle and return the stage-named
diagnostic. -/
def compile_any (D : DriverOracle) (shader_type : Nat) (source : String)
    (st : DrvState) : Option (Except String Nat × DrvState) := do
  let id := D.shaderHandle st.sCount
  let st1 ← checkCall D (GLCall.createShader shader_type id) ⟨st.sCount + 1, st.pCount, st.trace⟩
  if id = 0 then
    none
  else do
    let st2 ← checkCall D (GLCall.shaderSource id source) st1
    let st3 ← checkCall D (GLCall.compileShader id) st2
    let r ← compilation_succeeded D shader_type source id st3
    if r.1 then
      pure (Except.ok id, r.2)
    else do
      let l ← get_compilation_log D shader_type source id r.2
      let st4 ← checkCall D (GLCall.deleteShader id) l.2
      if shader_type = gl.VERTEX_SHADER then
        pure (Except.error ("Vertex shader compilation failed:\n" ++ l.1), st4)
      else
        pure (Except.error ("Fragment shader compilation failed:\n" ++ l.1), st4)

/-- `struct VertexShader { id: GLuint }`. -/
structure VertexShader where
  id : Nat
deriving DecidableEq, Repr

/-- `struct FragmentShader { id: GLuint }`. -/
structure FragmentShader where
  id : Nat
deriving DecidableEq, Repr

/-- `struct Program { id: GLuint }`. -/
structure Program where
  id : Nat
deriving DecidableEq, Repr

/-- `VertexShader::compile`. -/
def VertexShader.compile (D : DriverOracle) (source : String) (st : DrvState) :
    Option (Except String VertexShader × DrvState) :=
  (compile_any D gl.VERTEX_SHADER source st).map
    (fun r => (r.1.map (fun id => VertexShader.mk id), r.2))

/-- `impl Drop for VertexShader`: `check_gl!(gl::DeleteShader(self.id))`. -/
def VertexShader.drop (D : DriverOracle) (v : VertexShader) (st : DrvState) :
    Option DrvState :=
  checkCall D (GLCall.deleteShader v.id) st

/-- `FragmentShader::compile`. -/
def FragmentShader.compile (D : DriverOracle) (source : String) (st : DrvState) :
    Option (Except String FragmentShader × DrvState) :=
  (compile_any D gl.FRAGMENT_SHADER source st).map
    (fun r => (r.1.map (fun id => FragmentShader.mk id), r.2))

/-- `impl Drop for FragmentShader`: `check_gl!(gl::DeleteShader(self.id))`. -/
def FragmentShader.drop (D : DriverOracle) (f : FragmentShader) (st : DrvState) :
    Option DrvState :=
  checkCall D (GLCall.deleteShader f.id) st

/-- `fn link_succeeded(id) -> bool`: queries LINK_STATUS; the oracle
answers from the pair of shader handles attached to the program. -/
def link_succeeded (D : DriverOracle) (vid fid : Nat) (id : Nat) (st : DrvState) :
    Option (Bool × DrvState) :=
  (checkCall D (GLCall.getProgramLinkStatus id (D.linkOk vid fid)) st).map
    (fun st1 => (D.linkOk vid fid, st1))

/-- `fn get_link_log(shader_id) -> String`: queries INFO_LOG_LENGTH,
asserts it positive (fatal otherwise), then fetches the log text. -/
def get_link_log (D : DriverOracle) (vid fid : Nat) (shader_id : Nat)
    (st : DrvState) : Option (String × DrvState) :=
  let log := D.linkLog vid fid
  (checkCall D (GLCall.getProgramLogLength shader_id log.length) st).bind (fun st1 =>
    if log.length = 0 then none
    else (checkCall D (GLCall.getProgramInfoLog shader_id log) st1).map (fun st2 => (log, st2)))

/-- `Program::link(vertex, fragment)`: create a program handle, attach both
shader handles, link, query status.  The two consumed parameters are
dropped (their `Drop` impls delete the shader handles) when the function
returns, on both outcomes; on link failure the local `program` is also
dropped, issuing the raw `gl::DeleteProgram`. -/
def Program.link (D : DriverOracle) (vertex : VertexShader) (fragment : FragmentShader)
    (st : DrvState) : Option (Except String Program × DrvState) := do
  let pid := D.programHandle st.pCount
  let st1 ← checkCall D (GLCall.createProgram pid) ⟨st.sCount, st.pCount + 1, st.trace⟩
  let st2 ← checkCall D (GLCall.attachShader pid vertex.id) st1
  let st3 ← checkCall D (GLCall.attachShader pid fragment.id) st2
  let st4 ← checkCall D (GLCall.linkProgram pid) st3
  let r ← link_succeeded D vertex.id fragment.id pid st4
  if r.1 then do
    let st5 ← FragmentShader.drop D fragment r.2
    let st6 ← VertexShader.drop D vertex st5
    pure (Except.ok (Program.mk pid), st6)
  else do
    let l ← get_link_log D vertex.id fragment.id pid r.2
    let st5 := rawCall (GLCall.deleteProgram pid) l.2
    let st6 ← FragmentShader.drop D fragment st5
    let st7 ← VertexShader.drop D vertex st6
    pure (Except.error ("Shader linking failed:\n" ++ l.1), st7)

/-- `impl Drop for Program`: `gl::DeleteProgram(self.id)` — issued raw,
without the `check_gl!` wrapper. -/
def Program.drop (p : Program) (st : DrvState) : DrvState :=
  rawCall (GLCall.deleteProgram p.id) st

/-- `struct Shader { program: Program }`. -/
structure Shader where
  program : Program
deriving DecidableEq, Repr

/-- `struct Uniform { id: GLint }`. -/
structure Uniform where
  id : Int
deriving DecidableEq, Repr

/-- `Shader::new_from_source`: compile the vertex stage, `try!`
(an early return on failure); compile the fragment stage, `try!` (the
early return drops the live `vertex`); link (consuming both units). -/
def Shader.new_from_source (D : DriverOracle) (vertex_source fragment_source : String)
    (st : DrvState) : Option (Except String Shader × DrvState) := do
  let rv ← VertexShader.compile D vertex_source st
  match rv.1 with
  | Except.error e => pure (Except.error e, rv.2)
  | Except.ok vertex => do
    let rf ← FragmentShader.compile D fragment_source rv.2
    match rf.1 with
    | Except.error e => do
      let st1 ← VertexShader.drop D vertex rf.2
      pure (Except.error e, st1)
    | Except.ok fragment => do
      let rp ← Program.link D vertex fragment rf.2
      match rp.1 with
      | Except.error e => pure (Except.error e, rp.2)
      | Except.ok program => pure (Except.ok (Shader.mk program), rp.2)

/-- `Shader::bind`: `check_gl!(gl::UseProgram(self.program.id))`. -/
def Shader.bind (D : DriverOracle) (s : Shader) (st : DrvState) : Option DrvState :=
  checkCall D (GLCall.useProgram s.program.id) st

/-- `Shader::unbind`: `check_gl!(gl::UseProgram(0))`. -/
def Shader.unbind (D : DriverOracle) (s : Shader) (st : DrvState) : Option DrvState :=
  checkCall D (GLCall.useProgram 0) st

/-- Dropping a `Shader` drops its `Program` field. -/
def Shader.drop (s : Shader) (st : DrvState) : DrvState :=
  Program.drop s.program st

/-- `Shader::get_uniform`: query the uniform location; `-1` means the name
is not an active uniform and yields `none`, otherwise wrap the location. -/
def Shader.get_uniform (D : DriverOracle) (s : Shader) (name : String)
    (st : DrvState) : Option (Option Uniform × DrvState) :=
  (checkCall D (GLCall.getUniformLocation s.program.id name
      (D.uniformLoc s.program.id name)) st).map (fun st1 =>
    (if D.uniformLoc s.program.id name = -1 then none
     else some (Uniform.mk (D.uniformLoc s.program.id name)), st1))

/-- `Shader::set_uniform_i32`: `check_gl!(gl::Uniform1i(uniform.id, value))`. -/
def Shader.set_uniform_i32 (D : DriverOracle) (_s : Shader) (uniform : Uniform)
    (value : Int) (st : DrvState) : Option DrvState :=
  checkCall D (GLCall.uniform1i uniform.id value) st

/-- `Shader::set_uniform_f32`: `check_gl!(gl::Uniform1f(uniform.id, value))`. -/
def Shader.set_uniform_f32 (D : DriverOracle) (_s : Shader) (uniform : Uniform)
    (value : F32) (st : DrvState) : Option DrvState :=
  checkCall D (GLCall.uniform1f uniform.id value) st

/-- `Shader::set_uniform_vec3f`: `gl::Uniform3fv(uniform.id, 1, &value.x)`
— the driver reads 3 contiguous floats starting at `value.x`. -/
def Shader.set_uniform_vec3f (D : DriverOracle) (_s : Shader) (uniform : Uniform)
    (value : Vec3f) (st : DrvState) : Option DrvState :=
  checkCall D (GLCall.uniform3fv uniform.id 1 [value.x, value.y, value.z]) st

/-- `Shader::set_uniform_mat4`:
`gl::UniformMatrix4fv(uniform.id, 1, 0u8, value.as_scalar_ptr())` — the
transpose argument is `0u8`, i.e. `false`. -/
def Shader.set_uniform_mat4 (D : DriverOracle) (_s : Shader) (uniform : Uniform)
    (value : Mat4) (st : DrvState) : Option DrvState :=
  checkCall D (GLCall.uniformMatrix4fv uniform.id 1 false value.scalars) st

/-- The file-system collaborator: `File::open(path)` followed by
`read_to_end`, yielding the raw bytes or an `IoError` whose `desc` field is
a static description string. -/
structure FileSys where
  read : String → Except String (List Nat)

/-- Whether `b` is a UTF-8 continuation byte (`10xxxxxx`). -/
def utf8Cont (b : Nat) : Bool := 0x80 ≤ b && b ≤ 0xBF

/-- RFC 3629 UTF-8 decoding of a byte list (the model of Rust's
`String::from_utf8`): `none` on any ill-formed sequence, otherwise the
decoded scalar values as characters. -/
def utf8DecodeList : List Nat → Option (List Char)
  | [] => some []
  | b1 :: rest =>
    if b1 ≤ 0x7F then
      (utf8DecodeList rest).map (fun cs => Char.ofNat b1 :: cs)
    else if 0xC2 ≤ b1 && b1 ≤ 0xDF then
      match rest with
      | b2 :: rest2 =>
        if utf8Cont b2 then
          (utf8DecodeList rest2).map
            (fun cs => Char.ofNat ((b1 - 0xC0) * 0x40 + (b2 - 0x80)) :: cs)
        else none
      | [] => none
    else if 0xE0 ≤ b1 && b1 ≤ 0xEF then
      match rest with
      | b2 :: b3 :: rest3 =>
        if (if b1 = 0xE0 then 0xA0 ≤ b2 && b2 ≤ 0xBF
            else if b1 = 0xED then 0x80 ≤ b2 && b2 ≤ 0x9F
            else utf8Cont b2) && utf8Cont b3 then
          (utf8DecodeList rest3).map
            (fun cs => Char.ofNat ((b1 - 0xE0) * 0x1000 + (b2 - 0x80) * 0x40 + (b3 - 0x80)) :: cs)
        else none
      | _ => none
    else if 0xF0 ≤ b1 && b1 ≤ 0xF4 then
      match rest with
      | b2 :: b3 :: b4 :: rest4 =>
        if (if b1 = 0xF0 then 0x90 ≤ b2 && b2 ≤ 0xBF
            else if b1 = 0xF4 then 0x80 ≤ b2 && b2 ≤ 0x8F
            else utf8Cont b2) && utf8Cont b3 && utf8Cont b4 then
          (utf8DecodeList rest4).map
            (fun cs => Char.ofNat
              ((b1 - 0xF0) * 0x40000 + (b2 - 0x80) * 0x1000 + (b3 - 0x80) * 0x40 + (b4 - 0x80)) :: cs)
        else none
      | _ => none
    else none

/-- `fn file_contents(path) -> Result<String, String>`: open and read the
file (an I/O failure is mapped to the error's `desc` string), then decode
the bytes as UTF-8 (an encoding failure is mapped to a message naming the
path). -/
def file_contents (fs : FileSys) (path : String) : Except String String :=
  match fs.read path with
  | Except.error e => Except.error e
  | Except.ok buffer =>
    match utf8DecodeList buffer with
    | none => Except.error ("File at '" ++ path ++ "' is not valid UTF-8.")
    | some cs => Except.ok (String.mk cs)

/-- `Shader::new_from_files`: read the vertex file, `try!`; read the
fragment file, `try!`; delegate to `new_from_source`. -/
def Shader.new_from_files (D : DriverOracle) (fs : FileSys)
    (vertex_path fragment_path : String) (st : DrvState) :
    Option (Except String Shader × DrvState) :=
  match file_contents fs vertex_path with
  | Except.error e => some (Except.error e, st)
  | Except.ok vsrc =>
    match file_contents fs fragment_path with
    | Except.error e => some (Except.error e, st)
    | Except.ok fsrc => Shader.new_from_source D vsrc fsrc st

/-! ### Trace observations -/

/-- Handles returned by the create-shader calls of a trace, in order. -/
def createdShaders (t : List GLCall) : List Nat :=
  t.filterMap (fun c => match c with
    | GLCall.createShader _ id => some id
    | _ => none)

/-- Handles passed to the delete-shader calls of a trace, in order. -/
def deletedShaders (t : List GLCall) : List Nat :=
  t.filterMap (fun c => match c with
    | GLCall.deleteShader id => some id
    | _ => none)

/-- Handles returned by the create-program calls of a trace, in order. -/
def createdPrograms (t : List GLCall) : List Nat :=
  t.filterMap (fun c => match c with
    | GLCall.createProgram id => some id
    | _ => none)

/-- Handles passed to the delete-program calls of a trace, in order. -/
def deletedPrograms (t : List GLCall) : List Nat :=
  t.filterMap (fun c => match c with
    | GLCall.deleteProgram id => some id
    | _ => none)

/-- A trace is balanced when the created shader handles are exactly the
deleted shader handles (as multisets), and likewise for programs: every
handle created was deleted exactly once. -/
def balanced (t : List GLCall) : Prop :=
  List.Perm (createdShaders t) (deletedShaders t) ∧
  List.Perm (createdPrograms t) (deletedPrograms t)

/-- A trace in which every driver call is immediately followed by the
bridge's `getError` query. -/
def bridged : List GLCall → Bool
  | [] => true
  | [_] => false
  | _ :: c2 :: rest => if c2 = GLCall.getError then bridged rest else false

/-- Whether a call is a program deletion (the one call `Drop for Program`
issues raw). -/
def isProgDelete : GLCall → Bool
  | GLCall.deleteProgram _ => true
  | _ => false

/-- A trace in which every driver call is immediately followed by the
bridge's `getError` query, except that program deletions are allowed to be
raw (they come from `Program`'s `Drop` impl, the module's one unwrapped
call site). -/
def bridgedX : List GLCall → Bool
  | [] => true
  | [c] => isProgDelete c
  | c :: c2 :: rest =>
    if isProgDelete c then bridgedX (c2 :: rest)
    else if c2 = GLCall.getError then bridgedX rest
    else false

/-- Public operations a caller may perform on a live `Shader` between
construction and destruction (the `bind` / `unbind` part of a lifecycle). -/
inductive UseOp where
  | bindU
  | unbindU
deriving DecidableEq, Repr

/-- Run a sequence of bind/unbind operations on a shader. -/
def runUses (D : DriverOracle) (s : Shader) : List UseOp → DrvState → Option DrvState
  | [], st => some st
  | UseOp.bindU :: rest, st => (Shader.bind D s st).bind (runUses D s rest)
  | UseOp.unbindU :: rest, st => (Shader.unbind D s st).bind (runUses D s rest)

/-- The initial run state: no handles requested yet, empty trace. -/
def st0 : DrvState := ⟨0, 0, []⟩

/-- A well-behaved driver for the recoverable-failure claims: it never
raises the global error flag, hands out non-zero handles, and honours its
documented invariant that failure logs are non-empty. -/
def DriverOracle.benign (D : DriverOracle) : Prop :=
  (∀ c, D.errorAfter c = false) ∧
  (∀ n, D.shaderHandle n ≠ 0) ∧
  (∀ ty s, D.compileLog ty s ≠ "") ∧
  (∀ v f, D.linkLog v f ≠ "")

/-- Substring test on character lists: `hasPrefixL as bs` holds when `as`
is an initial segment of `bs`. -/
def hasPrefixL : List Char → List Char → Bool
  | [], _ => true
  | _ :: _, [] => false
  | a :: as, b :: bs => a = b && hasPrefixL as bs

/-- `containsSub needle hay`: the needle occurs contiguously in the hay. -/
def containsSub (needle : List Char) : List Char → Bool
  | [] => hasPrefixL needle []
  | b :: rest => hasPrefixL needle (b :: rest) || containsSub needle rest

/-- `strContains needle hay`: the needle string occurs as a contiguous
substring of the hay string. -/
def strContains (needle hay : String) : Bool :=
  containsSub needle.toList hay.toList

/-- A concrete well-behaved driver on which everything succeeds. -/
def D0 : DriverOracle :=
  ⟨fun n => n + 1, fun n => n + 101, fun _ _ => true, fun _ _ => "log",
   fun _ _ => true, fun _ _ => "log", fun _ _ => 3, fun _ => false⟩

/-- A concrete driver on which vertex compilation fails (fragment would
succeed). -/
def DvFail : DriverOracle :=
  ⟨fun n => n + 1, fun n => n + 101, fun ty _ => ty == gl.FRAGMENT_SHADER,
   fun _ _ => "log", fun _ _ => true, fun _ _ => "log", fun _ _ => 3, fun _ => false⟩

/-- A concrete driver on which fragment compilation fails (vertex
succeeds). -/
def DfFail : DriverOracle :=
  ⟨fun n => n + 1, fun n => n + 101, fun ty _ => ty == gl.VERTEX_SHADER,
   fun _ _ => "log", fun _ _ => true, fun _ _ => "log", fun _ _ => 3, fun _ => false⟩

/-- A concrete driver on which both stages compile but linking fails. -/
def DlinkFail : DriverOracle :=
  ⟨fun n => n + 1, fun n => n + 101, fun _ _ => true, fun _ _ => "log",
   fun _ _ => false, fun _ _ => "log", fun _ _ => 3, fun _ => false⟩

/-- A concrete driver whose create-shader call returns the invalid handle
zero. -/
def Dzero : DriverOracle :=
  ⟨fun _ => 0, fun n => n + 101, fun _ _ => true, fun _ _ => "log",
   fun _ _ => true, fun _ _ => "log", fun _ _ => 3, fun _ => false⟩

/-- A file system on which every read fails with a path-free I/O error
description, as Rust `IoError::desc` strings are. -/
def FS0 : FileSys :=
  ⟨fun _ => Except.error "couldn't open file"⟩

/-- A file system on which every read yields the single byte 0xFF, which
is not valid UTF-8. -/
def FSbad : FileSys :=
  ⟨fun _ => Except.ok [0xFF]⟩

/-! ### Symbolic execution lemmas under a well-behaved driver -/

theorem checkCall_eq (D : DriverOracle) (he : ∀ c, D.errorAfter c = false)
    (c : GLCall) (st : DrvState) :
    checkCall D c st = some ⟨st.sCount, st.pCount, st.trace ++ [c, GLCall.getError]⟩ := by
  simp [checkCall, he c]

theorem string_length_ne_zero {s : String} (h : s ≠ "") : s.length ≠ 0 := by
  intro h0
  exact h (by
    cases s with
    | mk data =>
      cases data with
      | nil => rfl
      | cons a l => simp [String.length] at h0)

theorem compile_any_ok (D : DriverOracle) (hb : D.benign) (ty : Nat) (source : String)
    (st : DrvState) (h : D.compileOk ty source = true) :
    compile_any D ty source st =
      some (Except.ok (D.shaderHandle st.sCount),
        ⟨st.sCount + 1, st.pCount, st.trace ++
          [GLCall.createShader ty (D.shaderHandle st.sCount), GLCall.getError,
           GLCall.shaderSource (D.shaderHandle st.sCount) source, GLCall.getError,
           GLCall.compileShader (D.shaderHandle st.sCount), GLCall.getError,
           GLCall.getShaderCompileStatus (D.shaderHandle st.sCount) true, GLCall.getError]⟩) := by
  obtain ⟨he, hh, -, -⟩ := hb
  simp [compile_any, compilation_succeeded, checkCall_eq D he, hh st.sCount, h]

theorem compile_any_fail (D : DriverOracle) (hb : D.benign) (ty : Nat) (source : String)
    (st : DrvState) (h : D.compileOk ty source = false) :
    compile_any D ty source st =
      some (Except.error
          ((if ty = gl.VERTEX_SHADER then "Vertex shader compilation failed:\n"
            else "Fragment shader compilation failed:\n") ++ D.compileLog ty source),
        ⟨st.sCount + 1, st.pCount, st.trace ++
          [GLCall.createShader ty (D.shaderHandle st.sCount), GLCall.getError,
           GLCall.shaderSource (D.shaderHandle st.sCount) source, GLCall.getError,
           GLCall.compileShader (D.shaderHandle st.sCount), GLCall.getError,
           GLCall.getShaderCompileStatus (D.shaderHandle st.sCount) false, GLCall.getError,
           GLCall.getShaderLogLength (D.shaderHandle st.sCount)
             (D.compileLog ty source).length, GLCall.getError,
           GLCall.getShaderInfoLog (D.shaderHandle st.sCount)
             (D.compileLog ty source), GLCall.getError,
           GLCall.deleteShader (D.shaderHandle st.sCount), GLCall.getError]⟩) := by
  obtain ⟨he, hh, hcl, -⟩ := hb
  have hlen := string_length_ne_zero (hcl ty source)
  by_cases hty : ty = gl.VERTEX_SHADER
  · subst hty
    simp [compile_any, compilation_succeeded, get_compilation_log,
      checkCall_eq D he, hh st.sCount, h, hlen]
  · simp [compile_any, compilation_succeeded, get_compilation_log,
      checkCall_eq D he, hh st.sCount, h, hlen, hty]

theorem link_ok (D : DriverOracle) (hb : D.benign) (vertex : VertexShader)
    (fragment : FragmentShader) (st : DrvState)
    (h : D.linkOk vertex.id fragment.id = true) :
    Program.link D vertex fragment st =
      some (Except.ok (Program.mk (D.programHandle st.pCount)),
        ⟨st.sCount, st.pCount + 1, st.trace ++
          [GLCall.createProgram (D.programHandle st.pCount), GLCall.getError,
           GLCall.attachShader (D.programHandle st.pCount) vertex.id, GLCall.getError,
           GLCall.attachShader (D.programHandle st.pCount) fragment.id, GLCall.getError,
           GLCall.linkProgram (D.programHandle st.pCount), GLCall.getError,
           GLCall.getProgramLinkStatus (D.programHandle st.pCount) true, GLCall.getError,
           GLCall.deleteShader fragment.id, GLCall.getError,
           GLCall.deleteShader vertex.id, GLCall.getError]⟩) := by
  obtain ⟨he, -, -, -⟩ := hb
  simp [Program.link, link_succeeded, FragmentShader.drop, VertexShader.drop,
    checkCall_eq D he, h]

theorem link_fail (D : DriverOracle) (hb : D.benign) (vertex : VertexShader)
    (fragment : FragmentShader) (st : DrvState)
    (h : D.linkOk vertex.id fragment.id = false) :
    Program.link D vertex fragment st =
      some (Except.error ("Shader linking failed:\n" ++ D.linkLog vertex.id fragment.id),
        ⟨st.sCount, st.pCount + 1, st.trace ++
          [GLCall.createProgram (D.programHandle st.pCount), GLCall.getError,
           GLCall.attachShader (D.programHandle st.pCount) vertex.id, GLCall.getError,
           GLCall.attachShader (D.programHandle st.pCount) fragment.id, GLCall.getError,
           GLCall.linkProgram (D.programHandle st.pCount), GLCall.getError,
           GLCall.getProgramLinkStatus (D.programHandle st.pCount) false, GLCall.getError,
           GLCall.getProgramLogLength (D.programHandle st.pCount)
             (D.linkLog vertex.id fragment.id).length, GLCall.getError,
           GLCall.getProgramInfoLog (D.programHandle st.pCount)
             (D.linkLog vertex.id fragment.id), GLCall.getError,
           GLCall.deleteProgram (D.programHandle st.pCount),
           GLCall.deleteShader fragment.id, GLCall.getError,
           GLCall.deleteShader vertex.id, GLCall.getError]⟩) := by
  obtain ⟨he, -, -, hll⟩ := hb
  have hlen := string_length_ne_zero (hll vertex.id fragment.id)
  simp [Program.link, link_succeeded, get_link_log, rawCall,
    FragmentShader.drop, VertexShader.drop, checkCall_eq D he, h, hlen]

theorem nfs_vertex_fail (D : DriverOracle) (hb : D.benign) (v f : String)
    (st : DrvState) (hv : D.compileOk gl.VERTEX_SHADER v = false) :
    Shader.new_from_source D v f st =
      some (Except.error ("Vertex shader compilation failed:\n" ++
          D.compileLog gl.VERTEX_SHADER v),
        ⟨st.sCount + 1, st.pCount, st.trace ++
          [GLCall.createShader gl.VERTEX_SHADER (D.shaderHandle st.sCount), GLCall.getError,
           GLCall.shaderSource (D.shaderHandle st.sCount) v, GLCall.getError,
           GLCall.compileShader (D.shaderHandle st.sCount), GLCall.getError,
           GLCall.getShaderCompileStatus (D.shaderHandle st.sCount) false, GLCall.getError,
           GLCall.getShaderLogLength (D.shaderHandle st.sCount)
             (D.compileLog gl.VERTEX_SHADER v).length, GLCall.getError,
           GLCall.getShaderInfoLog (D.shaderHandle st.sCount)
             (D.compileLog gl.VERTEX_SHADER v), GLCall.getError,
           GLCall.deleteShader (D.shaderHandle st.sCount), GLCall.getError]⟩) := by
  simp [Shader.new_from_source, VertexShader.compile,
    compile_any_fail D hb gl.VERTEX_SHADER v st hv, Except.map]

theorem nfs_fragment_fail (D : DriverOracle) (hb : D.benign) (v f : String)
    (st : DrvState) (hv : D.compileOk gl.VERTEX_SHADER v = true)
    (hf : D.compileOk gl.FRAGMENT_SHADER f = false) :
    Shader.new_from_source D v f st =
      some (Except.error ("Fragment shader compilation failed:\n" ++
          D.compileLog gl.FRAGMENT_SHADER f),
        ⟨st.sCount + 2, st.pCount, st.trace ++
          [GLCall.createShader gl.VERTEX_SHADER (D.shaderHandle st.sCount), GLCall.getError,
           GLCall.shaderSource (D.shaderHandle st.sCount) v, GLCall.getError,
           GLCall.compileShader (D.shaderHandle st.sCount), GLCall.getError,
           GLCall.getShaderCompileStatus (D.shaderHandle st.sCount) true, GLCall.getError,
           GLCall.createShader gl.FRAGMENT_SHADER (D.shaderHandle (st.sCount + 1)), GLCall.getError,
           GLCall.shaderSource (D.shaderHandle (st.sCount + 1)) f, GLCall.getError,
           GLCall.compileShader (D.shaderHandle (st.sCount + 1)), GLCall.getError,
           GLCall.getShaderCompileStatus (D.shaderHandle (st.sCount + 1)) false, GLCall.getError,
           GLCall.getShaderLogLength (D.shaderHandle (st.sCount + 1))
             (D.compileLog gl.FRAGMENT_SHADER f).length, GLCall.getError,
           GLCall.getShaderInfoLog (D.shaderHandle (st.sCount + 1))
             (D.compileLog gl.FRAGMENT_SHADER f), GLCall.getError,
           GLCall.deleteShader (D.shaderHandle (st.sCount + 1)), GLCall.getError,
           GLCall.deleteShader (D.shaderHandle st.sCount), GLCall.getError]⟩) := by
  have hvc := compile_any_ok D hb gl.VERTEX_SHADER v st hv
  have hfc := compile_any_fail D hb gl.FRAGMENT_SHADER f
    ⟨st.sCount + 1, st.pCount, st.trace ++
      [GLCall.createShader gl.VERTEX_SHADER (D.shaderHandle st.sCount), GLCall.getError,
       GLCall.shaderSource (D.shaderHandle st.sCount) v, GLCall.getError,
       GLCall.compileShader (D.shaderHandle st.sCount), GLCall.getError,
       GLCall.getShaderCompileStatus (D.shaderHandle st.sCount) true, GLCall.getError]⟩ hf
  obtain ⟨he, -, -, -⟩ := hb
  simp [Shader.new_from_source, VertexShader.compile, FragmentShader.compile,
    VertexShader.drop, hvc, hfc, Except.map, checkCall_eq D he,
    gl.VERTEX_SHADER, gl.FRAGMENT_SHADER] at *
  simp [hfc]

theorem nfs_link_fail (D : DriverOracle) (hb : D.benign) (v f : String)
    (st : DrvState) (hv : D.compileOk gl.VERTEX_SHADER v = true)
    (hf : D.compileOk gl.FRAGMENT_SHADER f = true)
    (hl : D.linkOk (D.shaderHandle st.sCount) (D.shaderHandle (st.sCount + 1)) = false) :
    Shader.new_from_source D v f st =
      some (Except.error ("Shader linking failed:\n" ++
          D.linkLog (D.shaderHandle st.sCount) (D.shaderHandle (st.sCount + 1))),
        ⟨st.sCount + 2, st.pCount + 1, st.trace ++
          [GLCall.createShader gl.VERTEX_SHADER (D.shaderHandle st.sCount), GLCall.getError,
           GLCall.shaderSource (D.shaderHandle st.sCount) v, GLCall.getError,
           GLCall.compileShader (D.shaderHandle st.sCount), GLCall.getError,
           GLCall.getShaderCompileStatus (D.shaderHandle st.sCount) true, GLCall.getError,
           GLCall.createShader gl.FRAGMENT_SHADER (D.shaderHandle (st.sCount + 1)), GLCall.getError,
           GLCall.shaderSource (D.shaderHandle (st.sCount + 1)) f, GLCall.getError,
           GLCall.compileShader (D.shaderHandle (st.sCount + 1)), GLCall.getError,
           GLCall.getShaderCompileStatus (D.shaderHandle (st.sCount + 1)) true, GLCall.getError,
           GLCall.createProgram (D.programHandle st.pCount), GLCall.getError,
           GLCall.attachShader (D.programHandle st.pCount) (D.shaderHandle st.sCount), GLCall.getError,
           GLCall.attachShader (D.programHandle st.pCount) (D.shaderHandle (st.sCount + 1)), GLCall.getError,
           GLCall.linkProgram (D.programHandle st.pCount), GLCall.getError,
           GLCall.getProgramLinkStatus (D.programHandle st.pCount) false, GLCall.getError,
           GLCall.getProgramLogLength (D.programHandle st.pCount)
             (D.linkLog (D.shaderHandle st.sCount) (D.shaderHandle (st.sCount + 1))).length, GLCall.getError,
           GLCall.getProgramInfoLog (D.programHandle st.pCount)
             (D.linkLog (D.shaderHandle st.sCount) (D.shaderHandle (st.sCount + 1))), GLCall.getError,
           GLCall.deleteProgram (D.programHandle st.pCount),
           GLCall.deleteShader (D.shaderHandle (st.sCount + 1)), GLCall.getError,
           GLCall.deleteShader (D.shaderHandle st.sCount), GLCall.getError]⟩) := by
  have hvc := compile_any_ok D hb gl.VERTEX_SHADER v st hv
  have hfc := compile_any_ok D hb gl.FRAGMENT_SHADER f
    ⟨st.sCount + 1, st.pCount, st.trace ++
      [GLCall.createShader gl.VERTEX_SHADER (D.shaderHandle st.sCount), GLCall.getError,
       GLCall.shaderSource (D.shaderHandle st.sCount) v, GLCall.getError,
       GLCall.compileShader (D.shaderHandle st.sCount), GLCall.getError,
       GLCall.getShaderCompileStatus (D.shaderHandle st.sCount) true, GLCall.getError]⟩ hf
  have hlc := link_fail D hb (VertexShader.mk (D.shaderHandle st.sCount))
    (FragmentShader.mk (D.shaderHandle (st.sCount + 1)))
    ⟨st.sCount + 1 + 1, st.pCount, st.trace ++
      [GLCall.createShader gl.VERTEX_SHADER (D.shaderHandle st.sCount), GLCall.getError,
       GLCall.shaderSource (D.shaderHandle st.sCount) v, GLCall.getError,
       GLCall.compileShader (D.shaderHandle st.sCount), GLCall.getError,
       GLCall.getShaderCompileStatus (D.shaderHandle st.sCount) true, GLCall.getError,
       GLCall.createShader gl.FRAGMENT_SHADER (D.shaderHandle (st.sCount + 1)), GLCall.getError,
       GLCall.shaderSource (D.shaderHandle (st.sCount + 1)) f, GLCall.getError,
       GLCall.compileShader (D.shaderHandle (st.sCount + 1)), GLCall.getError,
       GLCall.getShaderCompileStatus (D.shaderHandle (st.sCount + 1)) true, GLCall.getError]⟩ hl
  simp [Shader.new_from_source, VertexShader.compile, FragmentShader.compile,
    hvc, hfc, Except.map] at *
  simp [hlc]

theorem nfs_ok (D : DriverOracle) (hb : D.benign) (v f : String)
    (st : DrvState) (hv : D.compileOk gl.VERTEX_SHADER v = true)
    (hf : D.compileOk gl.FRAGMENT_SHADER f = true)
    (hl : D.linkOk (D.shaderHandle st.sCount) (D.shaderHandle (st.sCount + 1)) = true) :
    Shader.new_from_source D v f st =
      some (Except.ok (Shader.mk (Program.mk (D.programHandle st.pCount))),
        ⟨st.sCount + 2, st.pCount + 1, st.trace ++
          [GLCall.createShader gl.VERTEX_SHADER (D.shaderHandle st.sCount), GLCall.getError,
           GLCall.shaderSource (D.shaderHandle st.sCount) v, GLCall.getError,
           GLCall.compileShader (D.shaderHandle st.sCount), GLCall.getError,
           GLCall.getShaderCompileStatus (D.shaderHandle st.sCount) true, GLCall.getError,
           GLCall.createShader gl.FRAGMENT_SHADER (D.shaderHandle (st.sCount + 1)), GLCall.getError,
           GLCall.shaderSource (D.shaderHandle (st.sCount + 1)) f, GLCall.getError,
           GLCall.compileShader (D.shaderHandle (st.sCount + 1)), GLCall.getError,
           GLCall.getShaderCompileStatus (D.shaderHandle (st.sCount + 1)) true, GLCall.getError,
           GLCall.createProgram (D.programHandle st.pCount), GLCall.getError,
           GLCall.attachShader (D.programHandle st.pCount) (D.shaderHandle st.sCount), GLCall.getError,
           GLCall.attachShader (D.programHandle st.pCount) (D.shaderHandle (st.sCount + 1)), GLCall.getError,
           GLCall.linkProgram (D.programHandle st.pCount), GLCall.getError,
           GLCall.getProgramLinkStatus (D.programHandle st.pCount) true, GLCall.getError,
           GLCall.deleteShader (D.shaderHandle (st.sCount + 1)), GLCall.getError,
           GLCall.deleteShader (D.shaderHandle st.sCount), GLCall.getError]⟩) := by
  have hvc := compile_any_ok D hb gl.VERTEX_SHADER v st hv
  have hfc := compile_any_ok D hb gl.FRAGMENT_SHADER f
    ⟨st.sCount + 1, st.pCount, st.trace ++
      [GLCall.createShader gl.VERTEX_SHADER (D.shaderHandle st.sCount), GLCall.getError,
       GLCall.shaderSource (D.shaderHandle st.sCount) v, GLCall.getError,
       GLCall.compileShader (D.shaderHandle st.sCount), GLCall.getError,
       GLCall.getShaderCompileStatus (D.shaderHandle st.sCount) true, GLCall.getError]⟩ hf
  have hlc := link_ok D hb (VertexShader.mk (D.shaderHandle st.sCount))
    (FragmentShader.mk (D.shaderHandle (st.sCount + 1)))
    ⟨st.sCount + 1 + 1, st.pCount, st.trace ++
      [GLCall.createShader gl.VERTEX_SHADER (D.shaderHandle st.sCount), GLCall.getError,
       GLCall.shaderSource (D.shaderHandle st.sCount) v, GLCall.getError,
       GLCall.compileShader (D.shaderHandle st.sCount), GLCall.getError,
       GLCall.getShaderCompileStatus (D.shaderHandle st.sCount) true, GLCall.getError,
       GLCall.createShader gl.FRAGMENT_SHADER (D.shaderHandle (st.sCount + 1)), GLCall.getError,
       GLCall.shaderSource (D.shaderHandle (st.sCount + 1)) f, GLCall.getError,
       GLCall.compileShader (D.shaderHandle (st.sCount + 1)), GLCall.getError,
       GLCall.getShaderCompileStatus (D.shaderHandle (st.sCount + 1)) true, GLCall.getError]⟩ hl
  simp [Shader.new_from_source, VertexShader.compile, FragmentShader.compile,
    hvc, hfc, Except.map] at *
  simp [hlc]

/-! ### Trace algebra -/

theorem createdShaders_append (t u : List GLCall) :
    createdShaders (t ++ u) = createdShaders t ++ createdShaders u := by
  simp [createdShaders]

theorem deletedShaders_append (t u : List GLCall) :
    deletedShaders (t ++ u) = deletedShaders t ++ deletedShaders u := by
  simp [deletedShaders]

theorem createdPrograms_append (t u : List GLCall) :
    createdPrograms (t ++ u) = createdPrograms t ++ createdPrograms u := by
  simp [createdPrograms]

theorem deletedPrograms_append (t u : List GLCall) :
    deletedPrograms (t ++ u) = deletedPrograms t ++ deletedPrograms u := by
  simp [deletedPrograms]

theorem bridged_append : ∀ (t : List GLCall), bridged t = true →
    ∀ (u : List GLCall), bridged u = true → bridged (t ++ u) = true
  | [], _, u, hu => by simpa using hu
  | [a], ht, _, _ => by simp [bridged] at ht
  | a :: b :: t, ht, u, hu => by
    rw [bridged] at ht
    by_cases hbE : b = GLCall.getError
    · subst hbE
      have := bridged_append t (by simpa using ht) u hu
      simpa [bridged] using this
    · simp [hbE] at ht

theorem bridgedX_append : ∀ (t : List GLCall), bridgedX t = true →
    ∀ (u : List GLCall), bridgedX u = true → bridgedX (t ++ u) = true
  | [], _, u, hu => by simpa using hu
  | [a], ht, u, hu => by
    rw [bridgedX] at ht
    cases u with
    | nil => simpa [bridgedX] using ht
    | cons b u2 =>
      rw [List.singleton_append, bridgedX]
      simp only [ht, if_true]
      exact hu
  | a :: b :: t, ht, u, hu => by
    rw [bridgedX] at ht
    rw [List.cons_append, List.cons_append, bridgedX]
    cases hp : isProgDelete a with
    | true =>
      simp only [hp, if_true] at ht ⊢
      rw [← List.cons_append]
      exact bridgedX_append (b :: t) ht u hu
    | false =>
      simp only [hp, Bool.false_eq_true, if_false] at ht ⊢
      by_cases hbE : b = GLCall.getError
      · rw [if_pos hbE] at ht ⊢
        exact bridgedX_append t ht u hu
      · rw [if_neg hbE] at ht
        exact absurd ht (by simp)

theorem bridgedX_checkCall (D : DriverOracle) (he : ∀ c, D.errorAfter c = false)
    (c : GLCall) (st st' : DrvState) (h : checkCall D c st = some st')
    (hc : isProgDelete c = false) (ht : bridgedX st.trace = true) :
    bridgedX st'.trace = true := by
  rw [checkCall_eq D he c st] at h
  simp only [Option.some.injEq] at h
  rw [← h]
  exact bridgedX_append st.trace ht [c, GLCall.getError] (by simp [bridgedX, hc])

theorem runUses_counts (D : DriverOracle) (s : Shader) :
    ∀ (uses : List UseOp) (st st' : DrvState), runUses D s uses st = some st' →
      createdShaders st'.trace = createdShaders st.trace ∧
      deletedShaders st'.trace = deletedShaders st.trace ∧
      createdPrograms st'.trace = createdPrograms st.trace ∧
      deletedPrograms st'.trace = deletedPrograms st.trace
  | [], st, st', h => by
    simp [runUses] at h
    subst h
    exact ⟨rfl, rfl, rfl, rfl⟩
  | UseOp.bindU :: rest, st, st', h => by
    rw [runUses] at h
    rcases h1 : Shader.bind D s st with - | st1
    · rw [h1] at h; simp at h
    · rw [h1] at h
      simp at h
      have ih := runUses_counts D s rest st1 st' h
      have hst1 : st1.trace = st.trace ++ [GLCall.useProgram s.program.id, GLCall.getError] := by
        unfold Shader.bind checkCall at h1
        rcases he : D.errorAfter (GLCall.useProgram s.program.id) with - | -
        · rw [he] at h1; simp at h1; rw [← h1]
        · rw [he] at h1; simp at h1
      rw [hst1] at ih
      simpa [createdShaders_append, deletedShaders_append, createdPrograms_append,
        deletedPrograms_append, createdShaders, deletedShaders, createdPrograms,
        deletedPrograms] using ih
  | UseOp.unbindU :: rest, st, st', h => by
    rw [runUses] at h
    rcases h1 : Shader.unbind D s st with - | st1
    · rw [h1] at h; simp at h
    · rw [h1] at h
      simp at h
      have ih := runUses_counts D s rest st1 st' h
      have hst1 : st1.trace = st.trace ++ [GLCall.useProgram 0, GLCall.getError] := by
        unfold Shader.unbind checkCall at h1
        rcases he : D.errorAfter (GLCall.useProgram 0) with - | -
        · rw [he] at h1; simp at h1; rw [← h1]
        · rw [he] at h1; simp at h1
      rw [hst1] at ih
      simpa [createdShaders_append, deletedShaders_append, createdPrograms_append,
        deletedPrograms_append, createdShaders, deletedShaders, createdPrograms,
        deletedPrograms] using ih

theorem hasPrefixL_append (xs ys : List Char) : hasPrefixL xs (xs ++ ys) = true := by
  induction xs with
  | nil => rfl
  | cons a as ih => simp [hasPrefixL, ih]

theorem containsSub_nil : ∀ (hay : List Char), containsSub [] hay = true
  | [] => rfl
  | _ :: rest => by rw [containsSub]; simp [hasPrefixL]

theorem containsSub_here (xs ys : List Char) : containsSub xs (xs ++ ys) = true := by
  cases xs with
  | nil => exact containsSub_nil ys
  | cons a as =>
    rw [List.cons_append, containsSub]
    simp [hasPrefixL, hasPrefixL_append]

theorem containsSub_mid (xs : List Char) :
    ∀ (pre post : List Char), containsSub xs (pre ++ xs ++ post) = true := by
  intro pre
  induction pre with
  | nil => intro post; simpa using containsSub_here xs post
  | cons a pre ih =>
    intro post
    have h := ih post
    rw [List.append_assoc] at h ⊢
    rw [List.cons_append, containsSub]
    simp [h]

theorem strContains_mid (needle pre post : String) :
    strContains needle (pre ++ needle ++ post) = true := by
  simpa [strContains, String.toList] using
    containsSub_mid needle.data pre.data post.data

theorem log_ne_empty : ("log" : String) ≠ "" := by decide

theorem D0_benign : D0.benign :=
  ⟨fun _ => rfl, fun n => Nat.succ_ne_zero n, fun _ _ => log_ne_empty,
   fun _ _ => log_ne_empty⟩

theorem DvFail_benign : DvFail.benign :=
  ⟨fun _ => rfl, fun n => Nat.succ_ne_zero n, fun _ _ => log_ne_empty,
   fun _ _ => log_ne_empty⟩

theorem DfFail_benign : DfFail.benign :=
  ⟨fun _ => rfl, fun n => Nat.succ_ne_zero n, fun _ _ => log_ne_empty,
   fun _ _ => log_ne_empty⟩

theorem DlinkFail_benign : DlinkFail.benign :=
  ⟨fun _ => rfl, fun n => Nat.succ_ne_zero n, fun _ _ => log_ne_empty,
   fun _ _ => log_ne_empty⟩

/-! ### The claims -/

/-- C1: for every usage sequence — constructing a `Shader` via
`new_from_source` under a well-behaved driver (whether construction
succeeds or fails at any stage), optionally binding and unbinding it, and
destroying it — the driver trace is balanced: every shader and program
handle created is deleted exactly once, including on the early-return
failure paths inside `compile` and `link`. -/
theorem c1_lifecycle_balanced (D : DriverOracle) (hb : D.benign) (v f : String) :
    (∀ e st', Shader.new_from_source D v f st0 = some (Except.error e, st') →
        balanced st'.trace) ∧
    (∀ s st', Shader.new_from_source D v f st0 = some (Except.ok s, st') →
      ∀ uses st'', runUses D s uses st' = some st'' →
        balanced (Shader.drop s st'').trace) := by
  by_cases hv : D.compileOk gl.VERTEX_SHADER v
  case neg =>
    have heq := nfs_vertex_fail D hb v f st0 (by simpa using hv)
    constructor
    · intro e st' h
      rw [heq] at h
      simp only [Option.some.injEq, Prod.mk.injEq, Except.error.injEq] at h
      rw [← h.2]
      refine ⟨?_, ?_⟩
      · simp [createdShaders, deletedShaders, st0]
      · simp [createdPrograms, deletedPrograms, st0]
    · intro s st' h
      rw [heq] at h
      simp at h
  case pos =>
  by_cases hf : D.compileOk gl.FRAGMENT_SHADER f
  case neg =>
    have heq := nfs_fragment_fail D hb v f st0 hv (by simpa using hf)
    constructor
    · intro e st' h
      rw [heq] at h
      simp only [Option.some.injEq, Prod.mk.injEq, Except.error.injEq] at h
      rw [← h.2]
      refine ⟨?_, ?_⟩
      · simp [createdShaders, deletedShaders, st0]
        exact List.Perm.swap (D.shaderHandle 1) (D.shaderHandle 0) []
      · simp [createdPrograms, deletedPrograms, st0]
    · intro s st' h
      rw [heq] at h
      simp at h
  case pos =>
  by_cases hl : D.linkOk (D.shaderHandle 0) (D.shaderHandle 1)
  case neg =>
    have heq := nfs_link_fail D hb v f st0 hv hf (by simpa using hl)
    constructor
    · intro e st' h
      rw [heq] at h
      simp only [Option.some.injEq, Prod.mk.injEq, Except.error.injEq] at h
      rw [← h.2]
      refine ⟨?_, ?_⟩
      · simp [createdShaders, deletedShaders, st0]
        exact List.Perm.swap (D.shaderHandle 1) (D.shaderHandle 0) []
      · simp [createdPrograms, deletedPrograms, st0]
    · intro s st' h
      rw [heq] at h
      simp at h
  case pos =>
    have heq := nfs_ok D hb v f st0 hv hf hl
    constructor
    · intro e st' h
      rw [heq] at h
      simp at h
    · intro s st' h uses st'' hr
      rw [heq] at h
      simp only [Option.some.injEq, Prod.mk.injEq, Except.ok.injEq] at h
      obtain ⟨hs, hst'⟩ := h
      obtain ⟨hc1, hc2, hc3, hc4⟩ := runUses_counts D s uses st' st'' hr
      rw [← hst'] at hc1 hc2 hc3 hc4
      subst hs
      refine ⟨?_, ?_⟩
      · rw [Shader.drop, Program.drop, rawCall]
        simp only [createdShaders_append, deletedShaders_append, hc1, hc2]
        simp [createdShaders, deletedShaders, st0]
        exact List.Perm.swap (D.shaderHandle 1) (D.shaderHandle 0) []
      · rw [Shader.drop, Program.drop, rawCall]
        simp only [createdPrograms_append, deletedPrograms_append, hc3, hc4]
        simp [createdPrograms, deletedPrograms, st0]

/-- Witness for C1: the concrete driver on which linking fails, run on
concrete sources; the resulting failure trace is balanced. -/
theorem c1_lifecycle_balanced_witness :
    balanced
      [GLCall.createShader gl.VERTEX_SHADER 1, GLCall.getError,
       GLCall.shaderSource 1 "v", GLCall.getError,
       GLCall.compileShader 1, GLCall.getError,
       GLCall.getShaderCompileStatus 1 true, GLCall.getError,
       GLCall.createShader gl.FRAGMENT_SHADER 2, GLCall.getError,
       GLCall.shaderSource 2 "f", GLCall.getError,
       GLCall.compileShader 2, GLCall.getError,
       GLCall.getShaderCompileStatus 2 true, GLCall.getError,
       GLCall.createProgram 101, GLCall.getError,
       GLCall.attachShader 101 1, GLCall.getError,
       GLCall.attachShader 101 2, GLCall.getError,
       GLCall.linkProgram 101, GLCall.getError,
       GLCall.getProgramLinkStatus 101 false, GLCall.getError,
       GLCall.getProgramLogLength 101 3, GLCall.getError,
       GLCall.getProgramInfoLog 101 "log", GLCall.getError,
       GLCall.deleteProgram 101,
       GLCall.deleteShader 2, GLCall.getError,
       GLCall.deleteShader 1, GLCall.getError] :=
  (c1_lifecycle_balanced DlinkFail DlinkFail_benign "v" "f").1
    ("Shader linking failed:\nlog")
    ⟨2, 1,
     [GLCall.createShader gl.VERTEX_SHADER 1, GLCall.getError,
      GLCall.shaderSource 1 "v", GLCall.getError,
      GLCall.compileShader 1, GLCall.getError,
      GLCall.getShaderCompileStatus 1 true, GLCall.getError,
      GLCall.createShader gl.FRAGMENT_SHADER 2, GLCall.getError,
      GLCall.shaderSource 2 "f", GLCall.getError,
      GLCall.compileShader 2, GLCall.getError,
      GLCall.getShaderCompileStatus 2 true, GLCall.getError,
      GLCall.createProgram 101, GLCall.getError,
      GLCall.attachShader 101 1, GLCall.getError,
      GLCall.attachShader 101 2, GLCall.getError,
      GLCall.linkProgram 101, GLCall.getError,
      GLCall.getProgramLinkStatus 101 false, GLCall.getError,
      GLCall.getProgramLogLength 101 3, GLCall.getError,
      GLCall.getProgramInfoLog 101 "log", GLCall.getError,
      GLCall.deleteProgram 101,
      GLCall.deleteShader 2, GLCall.getError,
      GLCall.deleteShader 1, GLCall.getError]⟩
    rfl

/-- C2: `new_from_source` compiles the vertex stage first and
short-circuits: if vertex compilation fails, no fragment create-shader
call is issued, no link is attempted, and the returned error is the vertex
diagnostic; if the vertex stage succeeds and the fragment stage fails, the
fragment diagnostic is returned and no link is attempted; only when both
succeed is link attempted. -/
theorem c2_short_circuit (D : DriverOracle) (hb : D.benign) (v f : String) :
    (D.compileOk gl.VERTEX_SHADER v = false →
      ∃ st', Shader.new_from_source D v f st0 =
          some (Except.error ("Vertex shader compilation failed:\n" ++
            D.compileLog gl.VERTEX_SHADER v), st') ∧
        (∀ idf, GLCall.createShader gl.FRAGMENT_SHADER idf ∉ st'.trace) ∧
        (∀ p, GLCall.linkProgram p ∉ st'.trace)) ∧
    (D.compileOk gl.VERTEX_SHADER v = true → D.compileOk gl.FRAGMENT_SHADER f = false →
      ∃ st', Shader.new_from_source D v f st0 =
          some (Except.error ("Fragment shader compilation failed:\n" ++
            D.compileLog gl.FRAGMENT_SHADER f), st') ∧
        (∀ p, GLCall.linkProgram p ∉ st'.trace)) ∧
    (D.compileOk gl.VERTEX_SHADER v = true → D.compileOk gl.FRAGMENT_SHADER f = true →
      ∃ r st', Shader.new_from_source D v f st0 = some (r, st') ∧
        GLCall.linkProgram (D.programHandle 0) ∈ st'.trace) := by
  have hne : ¬ (gl.FRAGMENT_SHADER = gl.VERTEX_SHADER) := by decide
  refine ⟨?_, ?_, ?_⟩
  · intro hv
    refine ⟨_, nfs_vertex_fail D hb v f st0 hv, ?_, ?_⟩
    · intro idf
      simp [st0, hne]
    · intro p
      simp [st0]
  · intro hv hf
    refine ⟨_, nfs_fragment_fail D hb v f st0 hv hf, ?_⟩
    intro p
    simp [st0]
  · intro hv hf
    by_cases hl : D.linkOk (D.shaderHandle 0) (D.shaderHandle 1)
    · refine ⟨_, _, nfs_ok D hb v f st0 hv hf hl, ?_⟩
      simp [st0]
    · refine ⟨_, _, nfs_link_fail D hb v f st0 hv hf (by simpa using hl), ?_⟩
      simp [st0]

/-- Witness for C2: on the driver where vertex compilation fails, the
vertex diagnostic comes back and no fragment or link call appears. -/
theorem c2_short_circuit_witness :
    ∃ st', Shader.new_from_source DvFail "v" "f" st0 =
        some (Except.error ("Vertex shader compilation failed:\n" ++
          DvFail.compileLog gl.VERTEX_SHADER "v"), st') ∧
      (∀ idf, GLCall.createShader gl.FRAGMENT_SHADER idf ∉ st'.trace) ∧
      (∀ p, GLCall.linkProgram p ∉ st'.trace) :=
  (c2_short_circuit DvFail DvFail_benign "v" "f").1 (by decide)

/-- C3: when the driver reports link failure, `Program::link` returns the
error "Shader linking failed:" followed by the full link log, and the
newly created program handle is created and deleted exactly once within
the call (no program handle leak on the failure path). -/
theorem c3_link_failure_diag (D : DriverOracle) (hb : D.benign)
    (vertex : VertexShader) (fragment : FragmentShader) (st : DrvState)
    (hl : D.linkOk vertex.id fragment.id = false) :
    ∃ ext, Program.link D vertex fragment st =
      some (Except.error ("Shader linking failed:\n" ++ D.linkLog vertex.id fragment.id),
        ⟨st.sCount, st.pCount + 1, st.trace ++ ext⟩) ∧
      createdPrograms ext = [D.programHandle st.pCount] ∧
      deletedPrograms ext = [D.programHandle st.pCount] := by
  refine ⟨_, link_fail D hb vertex fragment st hl, ?_, ?_⟩
  · simp [createdPrograms]
  · simp [deletedPrograms]

/-- Witness for C3: the concrete link-failing driver on concrete units. -/
theorem c3_link_failure_diag_witness :
    ∃ ext, Program.link DlinkFail (VertexShader.mk 1) (FragmentShader.mk 2) st0 =
      some (Except.error ("Shader linking failed:\n" ++ DlinkFail.linkLog 1 2),
        ⟨st0.sCount, st0.pCount + 1, st0.trace ++ ext⟩) ∧
      createdPrograms ext = [DlinkFail.programHandle st0.pCount] ∧
      deletedPrograms ext = [DlinkFail.programHandle st0.pCount] :=
  c3_link_failure_diag DlinkFail DlinkFail_benign
    (VertexShader.mk 1) (FragmentShader.mk 2) st0 rfl

/-- C4: `Program::link` consumes both compilation units, and by the time
it returns — success or failure — both units' shader handles have been
deleted (their `Drop` impls ran inside the call).  The "callers lose
access" half of the claim is Rust move semantics, enforced by the type
system; the observable half proved here is that both deletions happen
within the link call's own trace extension on every outcome. -/
theorem c4_link_consumes_units (D : DriverOracle) (hb : D.benign)
    (vertex : VertexShader) (fragment : FragmentShader) (st : DrvState)
    (r : Except String Program) (st' : DrvState)
    (h : Program.link D vertex fragment st = some (r, st')) :
    ∃ ext, st'.trace = st.trace ++ ext ∧
      GLCall.deleteShader vertex.id ∈ ext ∧
      GLCall.deleteShader fragment.id ∈ ext := by
  by_cases hl : D.linkOk vertex.id fragment.id
  · rw [link_ok D hb vertex fragment st hl] at h
    simp only [Option.some.injEq, Prod.mk.injEq] at h
    rw [← h.2]
    exact ⟨_, rfl, by simp, by simp⟩
  · rw [link_fail D hb vertex fragment st (by simpa using hl)] at h
    simp only [Option.some.injEq, Prod.mk.injEq] at h
    rw [← h.2]
    exact ⟨_, rfl, by simp, by simp⟩

/-- Witness for C4: a successful link on the concrete driver deletes both
consumed shader handles inside the call. -/
theorem c4_link_consumes_units_witness :
    ∃ ext, (DrvState.mk 0 1
      [GLCall.createProgram 101, GLCall.getError,
       GLCall.attachShader 101 1, GLCall.getError,
       GLCall.attachShader 101 2, GLCall.getError,
       GLCall.linkProgram 101, GLCall.getError,
       GLCall.getProgramLinkStatus 101 true, GLCall.getError,
       GLCall.deleteShader 2, GLCall.getError,
       GLCall.deleteShader 1, GLCall.getError]).trace = st0.trace ++ ext ∧
      GLCall.deleteShader (VertexShader.mk 1).id ∈ ext ∧
      GLCall.deleteShader (FragmentShader.mk 2).id ∈ ext :=
  c4_link_consumes_units D0 D0_benign (VertexShader.mk 1) (FragmentShader.mk 2) st0
    (Except.ok (Program.mk 101)) _ rfl

/-- C5: when the driver reports compile failure for a source, `compile_any`
returns an error naming the stage — "Vertex shader compilation failed" for
the vertex stage and "Fragment shader compilation failed" otherwise —
followed by the full driver log, and the failed shader handle (the one
created in this call) is deleted before the error is returned. -/
theorem c5_compile_failure_diag (D : DriverOracle) (hb : D.benign)
    (ty : Nat) (source : String) (st : DrvState)
    (h : D.compileOk ty source = false) :
    ∃ ext, compile_any D ty source st =
      some (Except.error
          ((if ty = gl.VERTEX_SHADER then "Vertex shader compilation failed:\n"
            else "Fragment shader compilation failed:\n") ++ D.compileLog ty source),
        ⟨st.sCount + 1, st.pCount, st.trace ++ ext⟩) ∧
      createdShaders ext = [D.shaderHandle st.sCount] ∧
      deletedShaders ext = [D.shaderHandle st.sCount] := by
  refine ⟨_, compile_any_fail D hb ty source st h, ?_, ?_⟩
  · simp [createdShaders]
  · simp [deletedShaders]

/-- Witness for C5: the concrete driver failing fragment compilation
returns the fragment-stage diagnostic and deletes the failed handle. -/
theorem c5_compile_failure_diag_witness :
    ∃ ext, compile_any DfFail gl.FRAGMENT_SHADER "f" st0 =
      some (Except.error
          ((if gl.FRAGMENT_SHADER = gl.VERTEX_SHADER then "Vertex shader compilation failed:\n"
            else "Fragment shader compilation failed:\n") ++
            DfFail.compileLog gl.FRAGMENT_SHADER "f"),
        ⟨st0.sCount + 1, st0.pCount, st0.trace ++ ext⟩) ∧
      createdShaders ext = [DfFail.shaderHandle st0.sCount] ∧
      deletedShaders ext = [DfFail.shaderHandle st0.sCount] :=
  c5_compile_failure_diag DfFail DfFail_benign gl.FRAGMENT_SHADER "f" st0 (by decide)

/-- C6 counterexample: when the read itself fails, `file_contents` maps
the I/O error to its bare description (`e.desc`), which does not contain
the path, so `new_from_files` on a nonexistent path returns a message NOT
containing the path string — refuting the claim's read-failure half. -/
theorem c6_counterexample :
    Shader.new_from_files D0 FS0 "missing.vert" "missing.frag" st0 =
      some (Except.error "couldn't open file", st0) ∧
    strContains "missing.vert" "couldn't open file" = false :=
  ⟨rfl, by decide⟩

/-- C6 (amended): if reading a file fails, `new_from_files` returns the
I/O error's description verbatim (which need not contain the path); if
the bytes are not valid UTF-8, it returns a message that names the path
and states the content is not valid UTF-8 text. -/
theorem c6_file_errors_amended (D : DriverOracle) (fs : FileSys)
    (vp fp : String) (st : DrvState) :
    (∀ d, fs.read vp = Except.error d →
        Shader.new_from_files D fs vp fp st = some (Except.error d, st)) ∧
    (∀ bytes, fs.read vp = Except.ok bytes → utf8DecodeList bytes = none →
        Shader.new_from_files D fs vp fp st =
          some (Except.error ("File at '" ++ vp ++ "' is not valid UTF-8."), st) ∧
        strContains vp ("File at '" ++ vp ++ "' is not valid UTF-8.") = true) ∧
    (∀ vsrc d, file_contents fs vp = Except.ok vsrc → fs.read fp = Except.error d →
        Shader.new_from_files D fs vp fp st = some (Except.error d, st)) ∧
    (∀ vsrc bytes, file_contents fs vp = Except.ok vsrc → fs.read fp = Except.ok bytes →
        utf8DecodeList bytes = none →
        Shader.new_from_files D fs vp fp st =
          some (Except.error ("File at '" ++ fp ++ "' is not valid UTF-8."), st) ∧
        strContains fp ("File at '" ++ fp ++ "' is not valid UTF-8.") = true) := by
  refine ⟨?_, ?_, ?_, ?_⟩
  · intro d hd
    simp [Shader.new_from_files, file_contents, hd]
  · intro bytes hby hdec
    refine ⟨?_, strContains_mid vp "File at '" "' is not valid UTF-8."⟩
    simp [Shader.new_from_files, file_contents, hby, hdec]
  · intro vsrc d hv hd
    unfold Shader.new_from_files
    rw [hv]
    simp [file_contents, hd]
  · intro vsrc bytes hv hby hdec
    refine ⟨?_, strContains_mid fp "File at '" "' is not valid UTF-8."⟩
    unfold Shader.new_from_files
    rw [hv]
    simp [file_contents, hby, hdec]

/-- Witness for C6 (amended): a file of the single byte 0xFF produces the
UTF-8 diagnostic naming the path. -/
theorem c6_file_errors_amended_witness :
    Shader.new_from_files D0 FSbad "bad.vert" "bad.frag" st0 =
      some (Except.error ("File at '" ++ "bad.vert" ++ "' is not valid UTF-8."), st0) ∧
    strContains "bad.vert" ("File at '" ++ "bad.vert" ++ "' is not valid UTF-8.") = true :=
  (c6_file_errors_amended D0 FSbad "bad.vert" "bad.frag" st0).2.1 [0xFF] rfl rfl

/-- C7 counterexample: dropping a `Shader` (hence its `Program`) issues a
raw `DeleteProgram` not followed by the bridge's error query, so it is
false that no driver call in the module is issued raw. -/
theorem c7_counterexample :
    (Shader.drop (Shader.mk (Program.mk 1)) st0).trace = [GLCall.deleteProgram 1] ∧
    bridged (Shader.drop (Shader.mk (Program.mk 1)) st0).trace = false :=
  ⟨rfl, rfl⟩

/-- C7 (amended): every driver call the module makes is immediately
followed by the bridge's error query — except program deletion, which
`Program`'s `Drop` impl issues raw (this is the one unwrapped call site,
and it is also reached on `link`'s failure path).  The bridge turns a
reported error into a fatal fault. -/
theorem c7_bridge_amended (D : DriverOracle) (hb : D.benign) :
    (∀ ty src st r st', compile_any D ty src st = some (r, st') →
        bridgedX st.trace = true → bridgedX st'.trace = true) ∧
    (∀ vx fr st r st', Program.link D vx fr st = some (r, st') →
        bridgedX st.trace = true → bridgedX st'.trace = true) ∧
    (∀ v f st r st', Shader.new_from_source D v f st = some (r, st') →
        bridgedX st.trace = true → bridgedX st'.trace = true) ∧
    (∀ s st st', Shader.bind D s st = some st' →
        bridgedX st.trace = true → bridgedX st'.trace = true) ∧
    (∀ s st st', Shader.unbind D s st = some st' →
        bridgedX st.trace = true → bridgedX st'.trace = true) ∧
    (∀ s name st u st', Shader.get_uniform D s name st = some (u, st') →
        bridgedX st.trace = true → bridgedX st'.trace = true) ∧
    (∀ s u val st st', Shader.set_uniform_i32 D s u val st = some st' →
        bridgedX st.trace = true → bridgedX st'.trace = true) ∧
    (∀ s u val st st', Shader.set_uniform_f32 D s u val st = some st' →
        bridgedX st.trace = true → bridgedX st'.trace = true) ∧
    (∀ s u val st st', Shader.set_uniform_vec3f D s u val st = some st' →
        bridgedX st.trace = true → bridgedX st'.trace = true) ∧
    (∀ s u val st st', Shader.set_uniform_mat4 D s u val st = some st' →
        bridgedX st.trace = true → bridgedX st'.trace = true) ∧
    (∀ vs st st', VertexShader.drop D vs st = some st' →
        bridgedX st.trace = true → bridgedX st'.trace = true) ∧
    (∀ fr st st', FragmentShader.drop D fr st = some st' →
        bridgedX st.trace = true → bridgedX st'.trace = true) ∧
    (∀ p st, (Program.drop p st).trace = st.trace ++ [GLCall.deleteProgram p.id]) ∧
    (∀ (E : DriverOracle) c st, E.errorAfter c = true → checkCall E c st = none) := by
  have he := hb.1
  refine ⟨?_, ?_, ?_, ?_, ?_, ?_, ?_, ?_, ?_, ?_, ?_, ?_, ?_, ?_⟩
  · intro ty src st r st' h ht
    by_cases hc : D.compileOk ty src
    · rw [compile_any_ok D hb ty src st hc] at h
      simp only [Option.some.injEq, Prod.mk.injEq] at h
      rw [← h.2]
      exact bridgedX_append st.trace ht _ (by simp [bridgedX, isProgDelete])
    · rw [compile_any_fail D hb ty src st (by simpa using hc)] at h
      simp only [Option.some.injEq, Prod.mk.injEq] at h
      rw [← h.2]
      exact bridgedX_append st.trace ht _ (by simp [bridgedX, isProgDelete])
  · intro vx fr st r st' h ht
    by_cases hl : D.linkOk vx.id fr.id
    · rw [link_ok D hb vx fr st hl] at h
      simp only [Option.some.injEq, Prod.mk.injEq] at h
      rw [← h.2]
      exact bridgedX_append st.trace ht _ (by simp [bridgedX, isProgDelete])
    · rw [link_fail D hb vx fr st (by simpa using hl)] at h
      simp only [Option.some.injEq, Prod.mk.injEq] at h
      rw [← h.2]
      exact bridgedX_append st.trace ht _ (by simp [bridgedX, isProgDelete])
  · intro v f st r st' h ht
    by_cases hv : D.compileOk gl.VERTEX_SHADER v
    · by_cases hf : D.compileOk gl.FRAGMENT_SHADER f
      · by_cases hl : D.linkOk (D.shaderHandle st.sCount) (D.shaderHandle (st.sCount + 1))
        · rw [nfs_ok D hb v f st hv hf hl] at h
          simp only [Option.some.injEq, Prod.mk.injEq] at h
          rw [← h.2]
          exact bridgedX_append st.trace ht _ (by simp [bridgedX, isProgDelete])
        · rw [nfs_link_fail D hb v f st hv hf (by simpa using hl)] at h
          simp only [Option.some.injEq, Prod.mk.injEq] at h
          rw [← h.2]
          exact bridgedX_append st.trace ht _ (by simp [bridgedX, isProgDelete])
      · rw [nfs_fragment_fail D hb v f st hv (by simpa using hf)] at h
        simp only [Option.some.injEq, Prod.mk.injEq] at h
        rw [← h.2]
        exact bridgedX_append st.trace ht _ (by simp [bridgedX, isProgDelete])
    · rw [nfs_vertex_fail D hb v f st (by simpa using hv)] at h
      simp only [Option.some.injEq, Prod.mk.injEq] at h
      rw [← h.2]
      exact bridgedX_append st.trace ht _ (by simp [bridgedX, isProgDelete])
  · intro s st st' h ht
    exact bridgedX_checkCall D he _ st st' h rfl ht
  · intro s st st' h ht
    exact bridgedX_checkCall D he _ st st' h rfl ht
  · intro s name st u st' h ht
    rw [Shader.get_uniform, checkCall_eq D he] at h
    simp only [Option.map_some', Option.some.injEq, Prod.mk.injEq] at h
    rw [← h.2]
    exact bridgedX_append st.trace ht _ (by simp [bridgedX, isProgDelete])
  · intro s u val st st' h ht
    exact bridgedX_checkCall D he _ st st' h rfl ht
  · intro s u val st st' h ht
    exact bridgedX_checkCall D he _ st st' h rfl ht
  · intro s u val st st' h ht
    exact bridgedX_checkCall D he _ st st' h rfl ht
  · intro s u val st st' h ht
    exact bridgedX_checkCall D he _ st st' h rfl ht
  · intro vs st st' h ht
    exact bridgedX_checkCall D he _ st st' h rfl ht
  · intro fr st st' h ht
    exact bridgedX_checkCall D he _ st st' h rfl ht
  · intro p st
    rfl
  · intro E c st hE
    simp [checkCall, hE]

/-- Witness for C7 (amended): binding a concrete shader on the concrete
driver extends a bridged trace by a checked call. -/
theorem c7_bridge_amended_witness :
    bridgedX (DrvState.mk 0 0
      [GLCall.useProgram 1, GLCall.getError]).trace = true :=
  (c7_bridge_amended D0 D0_benign).2.2.2.1 (Shader.mk (Program.mk 1)) st0
    (DrvState.mk 0 0 [GLCall.useProgram 1, GLCall.getError]) rfl rfl

/-- C8: on a `Shader`, `get_uniform` returns an `Option` and never a
failure: under a non-erroring driver the call always completes; it yields
`none` exactly when the driver reports location `-1` (name not an active
uniform), and otherwise `some` carrying the driver-reported location. -/
theorem c8_get_uniform_option (D : DriverOracle) (he : ∀ c, D.errorAfter c = false)
    (s : Shader) (name : String) (st : DrvState) :
    (D.uniformLoc s.program.id name = -1 →
      Shader.get_uniform D s name st = some (none,
        ⟨st.sCount, st.pCount, st.trace ++
          [GLCall.getUniformLocation s.program.id name (-1), GLCall.getError]⟩)) ∧
    (D.uniformLoc s.program.id name ≠ -1 →
      Shader.get_uniform D s name st =
        some (some (Uniform.mk (D.uniformLoc s.program.id name)),
          ⟨st.sCount, st.pCount, st.trace ++
            [GLCall.getUniformLocation s.program.id name
              (D.uniformLoc s.program.id name), GLCall.getError]⟩)) := by
  constructor
  · intro h
    simp [Shader.get_uniform, checkCall_eq D he, h]
  · intro h
    simp [Shader.get_uniform, checkCall_eq D he, h]

/-- Witness for C8: the concrete driver reports location 3, so lookup
returns `some` with that location; a driver reporting -1 yields `none`. -/
theorem c8_get_uniform_option_witness :
    Shader.get_uniform D0 (Shader.mk (Program.mk 1)) "u" st0 =
      some (some (Uniform.mk 3),
        ⟨st0.sCount, st0.pCount, st0.trace ++
          [GLCall.getUniformLocation 1 "u" 3, GLCall.getError]⟩) :=
  (c8_get_uniform_option D0 (fun _ => rfl) (Shader.mk (Program.mk 1)) "u" st0).2
    (by decide)

/-- C9: in `compile_any`, a zero handle from the driver's create-shader
call is a fatal assertion failure, never a recoverable compile error;
with a non-zero handle the assertion passes and compilation proceeds to
upload the source and query compile-status. -/
theorem c9_zero_handle_fatal (D : DriverOracle) (ty : Nat) (source : String)
    (st : DrvState) :
    (D.errorAfter (GLCall.createShader ty 0) = false →
      D.shaderHandle st.sCount = 0 →
      compile_any D ty source st = none) ∧
    (D.benign → ∃ r st', compile_any D ty source st = some (r, st') ∧
      GLCall.shaderSource (D.shaderHandle st.sCount) source ∈ st'.trace ∧
      GLCall.getShaderCompileStatus (D.shaderHandle st.sCount)
        (D.compileOk ty source) ∈ st'.trace) := by
  constructor
  · intro he h0
    simp [compile_any, h0, checkCall, he]
  · intro hb
    by_cases hc : D.compileOk ty source
    · refine ⟨_, _, compile_any_ok D hb ty source st hc, ?_, ?_⟩
      · simp
      · simp [hc]
    · have hcf : D.compileOk ty source = false := by simpa using hc
      refine ⟨_, _, compile_any_fail D hb ty source st hcf, ?_, ?_⟩
      · simp
      · simp [hcf]

/-- Witness for C9: the zero-handle driver makes `compile_any` fatal; the
well-behaved driver proceeds past the assertion. -/
theorem c9_zero_handle_fatal_witness :
    compile_any Dzero gl.VERTEX_SHADER "s" st0 = none ∧
    (∃ r st', compile_any D0 gl.VERTEX_SHADER "s" st0 = some (r, st') ∧
      GLCall.shaderSource (D0.shaderHandle st0.sCount) "s" ∈ st'.trace ∧
      GLCall.getShaderCompileStatus (D0.shaderHandle st0.sCount)
        (D0.compileOk gl.VERTEX_SHADER "s") ∈ st'.trace) :=
  ⟨(c9_zero_handle_fatal Dzero gl.VERTEX_SHADER "s" st0).1 rfl rfl,
   (c9_zero_handle_fatal D0 gl.VERTEX_SHADER "s" st0).2 D0_benign⟩

/-- C10: each `set_uniform_*` call issues exactly one driver uniform-write
carrying the uniform's location and the value — the matrix with the
transpose flag false, the vector as its 3 scalar components — followed
only by the bridge's error query; and the call is identical no matter
which `Shader` instance it is invoked on (the receiver's program handle is
not consulted). -/
theorem c10_set_uniform_calls (D : DriverOracle) (he : ∀ c, D.errorAfter c = false)
    (u : Uniform) (st : DrvState) :
    (∀ s v, Shader.set_uniform_i32 D s u v st =
      some ⟨st.sCount, st.pCount, st.trace ++
        [GLCall.uniform1i u.id v, GLCall.getError]⟩) ∧
    (∀ s v, Shader.set_uniform_f32 D s u v st =
      some ⟨st.sCount, st.pCount, st.trace ++
        [GLCall.uniform1f u.id v, GLCall.getError]⟩) ∧
    (∀ s v, Shader.set_uniform_vec3f D s u v st =
      some ⟨st.sCount, st.pCount, st.trace ++
        [GLCall.uniform3fv u.id 1 [v.x, v.y, v.z], GLCall.getError]⟩) ∧
    (∀ s v, Shader.set_uniform_mat4 D s u v st =
      some ⟨st.sCount, st.pCount, st.trace ++
        [GLCall.uniformMatrix4fv u.id 1 false v.scalars, GLCall.getError]⟩) ∧
    (∀ s1 s2 v, Shader.set_uniform_i32 D s1 u v st = Shader.set_uniform_i32 D s2 u v st) ∧
    (∀ s1 s2 v, Shader.set_uniform_f32 D s1 u v st = Shader.set_uniform_f32 D s2 u v st) ∧
    (∀ s1 s2 v, Shader.set_uniform_vec3f D s1 u v st = Shader.set_uniform_vec3f D s2 u v st) ∧
    (∀ s1 s2 v, Shader.set_uniform_mat4 D s1 u v st = Shader.set_uniform_mat4 D s2 u v st) :=
  ⟨fun _ v => checkCall_eq D he (GLCall.uniform1i u.id v) st,
   fun _ v => checkCall_eq D he (GLCall.uniform1f u.id v) st,
   fun _ v => checkCall_eq D he (GLCall.uniform3fv u.id 1 [v.x, v.y, v.z]) st,
   fun _ v => checkCall_eq D he (GLCall.uniformMatrix4fv u.id 1 false v.scalars) st,
   fun _ _ _ => rfl, fun _ _ _ => rfl, fun _ _ _ => rfl, fun _ _ _ => rfl⟩

/-- Witness for C10: a concrete float write issues exactly the one
uniform-write call, and two different receivers produce the same call. -/
theorem c10_set_uniform_calls_witness :
    Shader.set_uniform_f32 D0 (Shader.mk (Program.mk 1)) (Uniform.mk 3)
        (F32.mk 0x40490FDB) st0 =
      some ⟨st0.sCount, st0.pCount, st0.trace ++
        [GLCall.uniform1f 3 (F32.mk 0x40490FDB), GLCall.getError]⟩ ∧
    Shader.set_uniform_f32 D0 (Shader.mk (Program.mk 1)) (Uniform.mk 3)
        (F32.mk 0x40490FDB) st0 =
      Shader.set_uniform_f32 D0 (Shader.mk (Program.mk 2)) (Uniform.mk 3)
        (F32.mk 0x40490FDB) st0 :=
  ⟨(c10_set_uniform_calls D0 (fun _ => rfl) (Uniform.mk 3) st0).2.1
      (Shader.mk (Program.mk 1)) (F32.mk 0x40490FDB),
   (c10_set_uniform_calls D0 (fun _ => rfl) (Uniform.mk 3) st0).2.2.2.2.2.1
      (Shader.mk (Program.mk 1)) (Shader.mk (Program.mk 2)) (F32.mk 0x40490FDB)⟩

end shader
